import Mathlib

/-!
Verification of the 3D_Plant_Scan scan-orchestration core.

This file gives a shallow embedding of the repository's Python code:
`turntable_control.py` (TurntableController), the `photo_control.py` and
`scan_control.py` found under the "3D Plant Scan - code" directory
(PhotoController, ScanController), and proves the spec claims about them.

Modelling conventions:
- Python ints are `Int`/`Nat`; Python `%` with a positive modulus is `Int.emod`
  (both give a result in `[0, modulus)`), written `%` below.
- Degree values are modelled as `ℚ` (the code uses floats; all claims settled
  here concern conversions whose outcome is stable under exact arithmetic at
  the inputs used).
- Python `int(x)` is truncation toward zero, modelled by `ratTrunc`.
- The motor primitive `HR8825.TurnStep` may raise; a call site is modelled by
  a `Bool` oracle saying whether the primitive succeeds, and each issued call
  is recorded as a `MotorCall` (direction and magnitude).
- Exceptions that the Python code catches and logs are modelled by the state
  being left as the `except` branch leaves it; exceptions that propagate are
  modelled with an error component in the result.
- the filesystem and the gphoto2 subprocess are modelled as emitted events;
  `os.path.exists` is an oracle `Bool` argument.
-/

namespace PlantScan

/-- Truncation toward zero on `ℚ`, the semantics of Python `int(x)` applied to
a real value: `turntable_control.py` line 63 computes
`int((degrees / 360.0) * self.total_steps_per_rev)`. Truncation toward zero is
the floor for nonnegative arguments and the ceiling for negative ones. -/
def ratTrunc (q : ℚ) : ℤ :=
  if 0 ≤ q then Int.floor q else Int.ceil q

/-- Modelled from the spec: the spec's `round(degrees / 360 * totalStepsPerRevolution)`
rounding-to-nearest rule (§4.1), as `Int.floor (q + 1/2)`. Ties round up; no
input used below is a tie, so the tie-breaking direction is irrelevant to the
comparison with the code. -/
def ratRound (q : ℚ) : ℤ :=
  Int.floor (q + 1 / 2)

/-- One call issued to the motor primitive `HR8825.TurnStep`:
`forward = true` models `Dir='forward'`, `steps` is the microstep magnitude. -/
structure MotorCall where
  forward : Bool
  steps : ℕ
deriving DecidableEq, Repr

/-- State of `TurntableController` (`turntable_control.py`): the configuration
fields fixed at `__init__` and the mutable `current_step` bookkeeping. -/
structure Turntable where
  steps_per_rev : ℕ
  microsteps : ℕ
  current_step : ℤ
deriving DecidableEq, Repr

/-- `self.total_steps_per_rev = self.steps_per_rev * self.microsteps`. -/
def Turntable.total_steps_per_rev (t : Turntable) : ℤ :=
  (t.steps_per_rev : ℤ) * (t.microsteps : ℤ)

/-- `TurntableController.__init__`: `current_step` starts at 0. -/
def Turntable.mkInit (spr ms : ℕ) : Turntable :=
  ⟨spr, ms, 0⟩

/-- `TurntableController.move_degrees(degrees)`: converts degrees to a signed
microstep count with `int(...)` (truncation toward zero), issues one primitive
call when the magnitude is positive, and updates `current_step` only when the
primitive succeeds (the `except` branch merely logs). Returns the new state and
the list of primitive calls issued. -/
def move_degrees (t : Turntable) (motorOk : Bool) (degrees : ℚ) :
    Turntable × List MotorCall :=
  let steps_to_move : ℤ := ratTrunc (degrees / 360 * (t.total_steps_per_rev : ℚ))
  let direction : Bool := decide (0 ≤ steps_to_move)
  let steps : ℕ := steps_to_move.natAbs
  if 0 < steps then
    if motorOk then
      ({ t with current_step := (t.current_step + steps_to_move) % t.total_steps_per_rev },
        [MotorCall.mk direction steps])
    else (t, [MotorCall.mk direction steps])
  else (t, [])

/-- `TurntableController.move_to_step(step)`: absolute move; the target is the
argument modulo `total_steps_per_rev`, the delta is signed, and `current_step`
is set to the target only when the primitive succeeds. -/
def move_to_step (t : Turntable) (motorOk : Bool) (step : ℤ) :
    Turntable × List MotorCall :=
  let target : ℤ := step % t.total_steps_per_rev
  let steps_to_move : ℤ := target - t.current_step
  let direction : Bool := decide (0 ≤ steps_to_move)
  let steps : ℕ := steps_to_move.natAbs
  if 0 < steps then
    if motorOk then
      ({ t with current_step := target }, [MotorCall.mk direction steps])
    else (t, [MotorCall.mk direction steps])
  else (t, [])

/-- `TurntableController.reset_position()`: when `current_step ≠ 0`, converts
`-current_step` to degrees and delegates to `move_degrees`. -/
def reset_position (t : Turntable) (motorOk : Bool) : Turntable × List MotorCall :=
  if t.current_step ≠ 0 then
    move_degrees t motorOk ((-t.current_step : ℤ) * (360 / (t.total_steps_per_rev : ℚ)))
  else (t, [])

/-- `TurntableController.get_position_degrees()`. -/
def get_position_degrees (t : Turntable) : ℚ :=
  (t.current_step : ℚ) * 360 / (t.total_steps_per_rev : ℚ)

/-- One abstract operation on the turntable controller, with the success oracle
for the motor primitive calls it makes. -/
inductive TtOp where
  | moveToStep (motorOk : Bool) (step : ℤ)
  | moveDegrees (motorOk : Bool) (degrees : ℚ)
  | resetToStart (motorOk : Bool)

/-- Apply one operation to the controller state. -/
def applyOp (t : Turntable) : TtOp → Turntable
  | TtOp.moveToStep ok s => (move_to_step t ok s).1
  | TtOp.moveDegrees ok d => (move_degrees t ok d).1
  | TtOp.resetToStart ok => (reset_position t ok).1

/-- Run a sequence of operations from a state. -/
def runOps (t : Turntable) (ops : List TtOp) : Turntable :=
  ops.foldl applyOp t

/-- The spec's invariant on `currentStep`: an integer in
`[0, totalStepsPerRevolution)`. -/
def stepInRange (t : Turntable) : Prop :=
  0 ≤ t.current_step ∧ t.current_step < t.total_steps_per_rev

instance (t : Turntable) : Decidable (stepInRange t) := by
  unfold stepInRange; infer_instance

/-- Filesystem / subprocess effects performed by `PhotoController.capture`
(`photo_control.py`): `makeDirs` is `os.makedirs`, `writeFile` is the
placeholder write of the fake-camera branch, `shell` is a `subprocess.run`
invocation of gphoto2 with the given argument list. -/
inductive CaptureEvent where
  | makeDirs (folder : String)
  | writeFile (path : String)
  | shell (cmd : List String)
deriving DecidableEq, Repr

/-- `os.path.dirname` restricted to the relative slash-separated paths the scan
code builds: everything before the last `/`, or the empty string when there is
no `/`. -/
def dirname (p : String) : String :=
  let parts := p.splitOn "/"
  if parts.length ≤ 1 then "" else String.intercalate "/" parts.dropLast

/-- `dict.get` on the camera map, modelled on an association list with the
insertion order of the Python dict. -/
def lookupAxis : List (String × String) → String → Option String
  | [], _ => none
  | (a, p) :: rest, axis => if a = axis then some p else lookupAxis rest axis

/-- `PhotoController.capture(axis, filename)` (`photo_control.py` lines 59-107).
`folderExists` is the `os.path.exists(folder)` oracle; `backendOk` says whether
the gphoto2 subprocess returns exit code 0. Result: the events performed and
`true` when the call returns normally, `false` when it raises
(`RuntimeError` for an unmapped/None axis or a nonzero gphoto2 exit). -/
def capturePort (mode : String) (folderExists backendOk : Bool) (filename : String) :
    Option String → List CaptureEvent × Bool
  | none => ([], false)
  | some port =>
    if port = "" ∨ port = "None" then ([], false)
    else if port = "Fake Camera" then
      let folder := dirname filename
      ((if folder ≠ "" ∧ folderExists = false then [CaptureEvent.makeDirs folder] else [])
        ++ [CaptureEvent.writeFile filename], true)
    else
      let folder := dirname filename
      let cmd :=
        if mode = "sdcard" then
          ["gphoto2", "--port=" ++ port, "--capture-image"]
        else
          ["gphoto2", "--port=" ++ port, "--capture-image-and-download",
            "--filename=" ++ filename, "--force-overwrite"]
      ((if folder ≠ "" ∧ folderExists = false then [CaptureEvent.makeDirs folder] else [])
        ++ [CaptureEvent.shell cmd], backendOk)

/-- Entry point of `PhotoController.capture`: looks the axis up in the camera
map (`self.camera_map.get(axis)`) and dispatches on the port value. -/
def capture (camera_map : List (String × String)) (mode : String)
    (folderExists backendOk : Bool) (axis filename : String) :
    List CaptureEvent × Bool :=
  capturePort mode folderExists backendOk filename (lookupAxis camera_map axis)

/-- Per-axis phases of `PhotoController.download_all`: the bulk `--get-all-files`
retrieval, the rename/move pass into the output directory, and the
`--delete-all-files` cleanup. -/
inductive DlEvent where
  | download (axis : String)
  | rename (axis : String)
  | deleteAll (axis : String)
deriving DecidableEq, Repr

/-- The three phases `download_all` runs for one axis when the bulk retrieval
succeeds (delete failures are caught and only logged, so the delete phase is
always attempted for such an axis). -/
def axisEvents (axis : String) : List DlEvent :=
  [DlEvent.download axis, DlEvent.rename axis, DlEvent.deleteAll axis]

/-- `PhotoController.download_all` (`photo_control.py` lines 109-182), iterating
the camera map in order. `dlOk axis` says whether the gphoto2 bulk retrieval
for that axis exits with code 0. On a nonzero exit the code logs and
`raise`s, which propagates out of the `for` loop: the result is the events
performed so far plus `some axis` identifying the propagated exception.
`none` means `download_all` returned normally. -/
def download_all (camera_map : List (String × String)) (dlOk : String → Bool) :
    List DlEvent × Option String :=
  match camera_map with
  | [] => ([], none)
  | (axis, _port) :: rest =>
    if dlOk axis then
      let r := download_all rest dlOk
      (axisEvents axis ++ r.1, r.2)
    else ([DlEvent.download axis], some axis)

/-- Observable events of one `ScanController.perform_scan` run
(`scan_control.py` lines 64-112). `captureAttempt axis step` is one call to
`self.photo.capture` (step 0 being the initial 0° pass); `rotate step` is the
`self.turntable.move_degrees` call of that loop iteration; `stoppedByUser step`
is the logged break when the check at the top of iteration `step` sees `_stop`;
`reset` is the unconditional `self.turntable.reset_position()`; `downloadAll`
is the deferred `self.photo.download_all` of sdcard mode. -/
inductive ScanEvent where
  | captureAttempt (axis : String) (step : ℕ)
  | rotate (step : ℕ)
  | stoppedByUser (step : ℕ)
  | reset
  | downloadAll
deriving DecidableEq, Repr

/-- The mutable `ScanController` state a run threads: the owned turntable and
the `_stop` flag (written by `stop_scan`, polled by the loop). -/
structure ScanState where
  tt : Turntable
  stop : Bool
deriving DecidableEq, Repr

/-- `int(360 / angle_per_photo)`: the `num_steps` computed in
`ScanController.__init__`. -/
def num_steps_of (angle_per_photo : ℚ) : ℤ :=
  ratTrunc (360 / angle_per_photo)

/-- The `for step in range(1, num_steps)` loop body of `perform_scan`, indexed
by remaining iterations (`fuel`) and the current `step`. Each iteration first
polls `_stop`; on a break it logs ("Scan stopped by user", the
`stoppedByUser` event) and exits. Otherwise it rotates by `angle` degrees
(`motorOk step` says whether that primitive call succeeds; `move_degrees`
swallows the failure), then attempts one capture per configured axis (capture
exceptions are caught and logged, so every attempt is recorded and the loop
continues). `cancelDuring step` models `stop_scan` being called from another
context while iteration `step`'s body (or its trailing sleep) runs: the flag
is set before the next poll. -/
def scanLoop (cameras : List String) (angle : ℚ) (motorOk cancelDuring : ℕ → Bool) :
    ℕ → ℕ → ScanState → ScanState × List ScanEvent
  | 0, _, st => (st, [])
  | fuel + 1, step, st =>
    if st.stop then (st, [ScanEvent.stoppedByUser step])
    else
      let tt2 := (move_degrees st.tt (motorOk step) angle).1
      let st2 : ScanState := ⟨tt2, st.stop || cancelDuring step⟩
      let r := scanLoop cameras angle motorOk cancelDuring fuel (step + 1) st2
      (r.1, (ScanEvent.rotate step :: cameras.map fun a => ScanEvent.captureAttempt a step)
        ++ r.2)

/-- `ScanController.perform_scan(label)`. Entry sets `self._stop = False`; the
initial 0° captures run for every configured axis before any movement
(`cancelDuring 0` models a `stop_scan` arriving during that initial phase);
the main loop runs steps `1 .. num_steps - 1`; the turntable reset is invoked
unconditionally after the loop (`resetOk` is the motor oracle for it); and in
"sdcard" mode `download_all` is invoked last (its exceptions are caught). -/
def perform_scan (cameras : List String) (num_steps : ℕ) (angle : ℚ) (mode : String)
    (motorOk cancelDuring : ℕ → Bool) (resetOk : Bool) (st : ScanState) :
    ScanState × List ScanEvent :=
  let st1 : ScanState := ⟨st.tt, false || cancelDuring 0⟩
  let r := scanLoop cameras angle motorOk cancelDuring (num_steps - 1) 1 st1
  let tt2 := (reset_position r.1.tt resetOk).1
  (⟨tt2, r.1.stop⟩,
    (cameras.map fun a => ScanEvent.captureAttempt a 0)
      ++ r.2
      ++ ScanEvent.reset :: (if mode = "sdcard" then [ScanEvent.downloadAll] else []))

/-- Recognizer for capture-attempt events. -/
def isCapture : ScanEvent → Bool
  | ScanEvent.captureAttempt _ _ => true
  | _ => false

/-- Recognizer for the reset event. -/
def isReset : ScanEvent → Bool
  | ScanEvent.reset => true
  | _ => false

/-- Recognizer for the user-stop break event. -/
def isStopped : ScanEvent → Bool
  | ScanEvent.stoppedByUser _ => true
  | _ => false

/-- Recognizer for rotations at a step strictly beyond `k`. -/
def rotateAbove (k : ℕ) : ScanEvent → Bool
  | ScanEvent.rotate s => decide (k < s)
  | _ => false

/-- Recognizer for gphoto2 invocations among capture events. -/
def isShell : CaptureEvent → Bool
  | CaptureEvent.shell _ => true
  | _ => false

/-- Truncation of the rational zero is zero. -/
theorem ratTrunc_zero : ratTrunc 0 = 0 := by
  norm_num [ratTrunc]

/-- Cast of the default 200 × 32 configuration's total microstep count. -/
theorem total_default_cast :
    ((Turntable.mkInit 200 32).total_steps_per_rev : ℚ) = 6400 := by
  norm_num [Turntable.mkInit, Turntable.total_steps_per_rev]

/-- Concrete conversion at the default configuration: `move_degrees(1)` on a
6400-microstep revolution truncates 160/9 to 17. -/
theorem ratTrunc_default_one :
    ratTrunc (1 / 360 * ((Turntable.mkInit 200 32).total_steps_per_rev : ℚ)) = 17 := by
  unfold ratTrunc
  rw [total_default_cast, if_pos (by norm_num : (0 : ℚ) ≤ 1 / 360 * 6400)]
  norm_num

/-- Concrete conversion at the default configuration: `move_degrees(10)` on a
6400-microstep revolution truncates 1600/9 to 177. -/
theorem ratTrunc_default_ten :
    ratTrunc (10 / 360 * ((Turntable.mkInit 200 32).total_steps_per_rev : ℚ)) = 177 := by
  unfold ratTrunc
  rw [total_default_cast, if_pos (by norm_num : (0 : ℚ) ≤ 10 / 360 * 6400)]
  norm_num

/-- C2 (corrected), counterexample: with the default controller
(200 × 32 = 6400 microsteps per revolution), `move_degrees(1)` issues a
forward primitive call of magnitude 17 and records `current_step = 17`
(truncation of 160/9 ≈ 17.78), whereas the claimed round-to-nearest rule
yields 18. -/
theorem move_degrees_round_counterexample :
    (move_degrees (Turntable.mkInit 200 32) true 1).2 = [MotorCall.mk true 17] ∧
    ((move_degrees (Turntable.mkInit 200 32) true 1).1).current_step = 17 ∧
    ratRound (1 / 360 * ((Turntable.mkInit 200 32).total_steps_per_rev : ℚ)) = 18 := by
  have h1 : move_degrees (Turntable.mkInit 200 32) true 1 =
      ({ Turntable.mkInit 200 32 with current_step := 17 }, [MotorCall.mk true 17]) := by
    unfold move_degrees
    rw [ratTrunc_default_one]
    decide
  refine ⟨by rw [h1], by rw [h1], ?_⟩
  unfold ratRound
  rw [total_default_cast]
  norm_num

/-- C2 (corrected), amended: `move_degrees` converts degrees to a signed
microstep count by truncation toward zero (Python `int`), not rounding to
nearest; direction is forward exactly when the signed count is ≥ 0, the
magnitude moved is its absolute value, a zero count issues no call, and a
successful nonzero move adds the signed count to `current_step` modulo
`total_steps_per_rev`. -/
theorem move_degrees_truncates (t : Turntable) (ok : Bool) (d : ℚ) :
    move_degrees t ok d =
      ((if ratTrunc (d / 360 * (t.total_steps_per_rev : ℚ)) = 0 ∨ ok = false then t
        else { t with current_step :=
          (t.current_step + ratTrunc (d / 360 * (t.total_steps_per_rev : ℚ)))
            % t.total_steps_per_rev }),
       if ratTrunc (d / 360 * (t.total_steps_per_rev : ℚ)) = 0 then []
       else [MotorCall.mk (decide (0 ≤ ratTrunc (d / 360 * (t.total_steps_per_rev : ℚ))))
              (ratTrunc (d / 360 * (t.total_steps_per_rev : ℚ))).natAbs]) := by
  unfold move_degrees
  by_cases h0 : ratTrunc (d / 360 * (t.total_steps_per_rev : ℚ)) = 0
  · simp [h0]
  · have hpos : 0 < (ratTrunc (d / 360 * (t.total_steps_per_rev : ℚ))).natAbs :=
      Int.natAbs_pos.mpr h0
    cases ok <;> simp [hpos, h0]

/-- C3 (confirmed): when the motor primitive raises inside `move_degrees`, the
`except` branch leaves the whole controller state (in particular
`current_step`) unchanged: the move fails atomically. -/
theorem move_degrees_failure_atomic (t : Turntable) (d : ℚ) :
    (move_degrees t false d).1 = t := by
  unfold move_degrees
  by_cases hs : 0 < (ratTrunc (d / 360 * (t.total_steps_per_rev : ℚ))).natAbs
  · simp [hs]
  · simp [hs]

/-- C9 (confirmed): `move_degrees(0)` issues no primitive call and returns the
state unchanged. -/
theorem move_degrees_zero_noop (t : Turntable) (ok : Bool) :
    move_degrees t ok 0 = (t, []) := by
  have h : (0 : ℚ) / 360 * (t.total_steps_per_rev : ℚ) = 0 := by norm_num
  unfold move_degrees
  rw [h, ratTrunc_zero]
  simp

/-- The state after `move_degrees` is either unchanged or a pure
`current_step` update to the modular sum. -/
theorem move_degrees_fst (t : Turntable) (ok : Bool) (d : ℚ) :
    (move_degrees t ok d).1 = t ∨
      (move_degrees t ok d).1 =
        { t with current_step :=
            (t.current_step + ratTrunc (d / 360 * (t.total_steps_per_rev : ℚ)))
              % t.total_steps_per_rev } := by
  unfold move_degrees
  by_cases hs : 0 < (ratTrunc (d / 360 * (t.total_steps_per_rev : ℚ))).natAbs
  · cases ok
    · left; simp [hs]
    · right; simp [hs]
  · left; simp [hs]

/-- The state after `move_to_step` is either unchanged or a pure
`current_step` update to the modular target. -/
theorem move_to_step_fst (t : Turntable) (ok : Bool) (s : ℤ) :
    (move_to_step t ok s).1 = t ∨
      (move_to_step t ok s).1 = { t with current_step := s % t.total_steps_per_rev } := by
  unfold move_to_step
  by_cases hs : 0 < (s % t.total_steps_per_rev - t.current_step).natAbs
  · cases ok
    · left; simp [hs]
    · right; simp [hs]
  · left; simp [hs]

/-- `move_degrees` keeps `current_step` in `[0, total)` and preserves the
configuration, assuming a positive total and the invariant beforehand. -/
theorem move_degrees_preserves (t : Turntable) (ok : Bool) (d : ℚ)
    (hpos : 0 < t.total_steps_per_rev) (h : stepInRange t) :
    stepInRange ((move_degrees t ok d).1) ∧
      ((move_degrees t ok d).1).total_steps_per_rev = t.total_steps_per_rev := by
  rcases move_degrees_fst t ok d with he | he
  · rw [he]; exact ⟨h, rfl⟩
  · rw [he]
    exact ⟨⟨Int.emod_nonneg _ (ne_of_gt hpos), Int.emod_lt_of_pos _ hpos⟩, rfl⟩

/-- `move_to_step` keeps `current_step` in `[0, total)` and preserves the
configuration. -/
theorem move_to_step_preserves (t : Turntable) (ok : Bool) (s : ℤ)
    (hpos : 0 < t.total_steps_per_rev) (h : stepInRange t) :
    stepInRange ((move_to_step t ok s).1) ∧
      ((move_to_step t ok s).1).total_steps_per_rev = t.total_steps_per_rev := by
  rcases move_to_step_fst t ok s with he | he
  · rw [he]; exact ⟨h, rfl⟩
  · rw [he]
    exact ⟨⟨Int.emod_nonneg _ (ne_of_gt hpos), Int.emod_lt_of_pos _ hpos⟩, rfl⟩

/-- `reset_position` keeps `current_step` in `[0, total)` and preserves the
configuration. -/
theorem reset_position_preserves (t : Turntable) (ok : Bool)
    (hpos : 0 < t.total_steps_per_rev) (h : stepInRange t) :
    stepInRange ((reset_position t ok).1) ∧
      ((reset_position t ok).1).total_steps_per_rev = t.total_steps_per_rev := by
  unfold reset_position
  split
  · exact move_degrees_preserves t ok _ hpos h
  · exact ⟨h, rfl⟩

/-- Every controller operation preserves the range invariant and the
configuration. -/
theorem applyOp_preserves (t : Turntable) (op : TtOp)
    (hpos : 0 < t.total_steps_per_rev) (h : stepInRange t) :
    stepInRange (applyOp t op) ∧
      (applyOp t op).total_steps_per_rev = t.total_steps_per_rev := by
  cases op with
  | moveToStep ok s => exact move_to_step_preserves t ok s hpos h
  | moveDegrees ok d => exact move_degrees_preserves t ok d hpos h
  | resetToStart ok => exact reset_position_preserves t ok hpos h

/-- Any sequence of controller operations preserves the range invariant. -/
theorem runOps_preserves (ops : List TtOp) : ∀ (t : Turntable),
    0 < t.total_steps_per_rev → stepInRange t →
    stepInRange (runOps t ops) ∧
      (runOps t ops).total_steps_per_rev = t.total_steps_per_rev := by
  induction ops with
  | nil => intro t _ h; exact ⟨h, rfl⟩
  | cons op ops ih =>
    intro t hpos h
    have h1 := applyOp_preserves t op hpos h
    have h2 := ih (applyOp t op) (by rw [h1.2]; exact hpos) h1.1
    exact ⟨h2.1, h2.2.trans h1.2⟩

/-- C6 (confirmed): `current_step` is 0 at construction and stays an integer in
`[0, totalStepsPerRevolution)` under every sequence of `move_to_step`,
`move_degrees` and `reset_position` operations, for any positive motor
configuration. -/
theorem current_step_in_range (spr ms : ℕ) (ops : List TtOp)
    (h1 : 0 < spr) (h2 : 0 < ms) :
    (Turntable.mkInit spr ms).current_step = 0 ∧
      stepInRange (runOps (Turntable.mkInit spr ms) ops) := by
  have hpos : 0 < (Turntable.mkInit spr ms).total_steps_per_rev :=
    mul_pos (Int.natCast_pos.mpr h1) (Int.natCast_pos.mpr h2)
  exact ⟨rfl, (runOps_preserves ops _ hpos ⟨le_refl 0, hpos⟩).1⟩

/-- Counting helper: the events of the axes preceding a failure. -/
theorem download_all_ok_front (pre : List (String × String)) (dlOk : String → Bool)
    (rest : List (String × String)) (h1 : ∀ x ∈ pre, dlOk x.1 = true) :
    download_all (pre ++ rest) dlOk =
      ((pre.map fun x => axisEvents x.1).flatten ++ (download_all rest dlOk).1,
        (download_all rest dlOk).2) := by
  induction pre with
  | nil => simp
  | cons hd tl ih =>
    obtain ⟨ax, po⟩ := hd
    have hhd : dlOk ax = true := h1 (ax, po) (List.mem_cons_self _ _)
    have htl : ∀ x ∈ tl, dlOk x.1 = true := fun x hx => h1 x (List.mem_cons_of_mem _ hx)
    simp only [List.cons_append, download_all, hhd, if_true, List.append_eq]
    rw [ih htl]
    simp [List.append_assoc]

/-- C7 (corrected), counterexample: with two mapped axes and the bulk
retrieval failing on the first ("Y"), `download_all` performs only the failed
download attempt for "Y" and raises; the second axis "Z" is never attempted
(no download, rename or delete event for it). -/
theorem download_all_counterexample :
    download_all [("Y", "p1"), ("Z", "p2")] (fun s => !(s == "Y")) =
      ([DlEvent.download "Y"], some "Y") ∧
    (download_all [("Y", "p1"), ("Z", "p2")] (fun s => !(s == "Y"))).1.countP
        (fun e => e == DlEvent.download "Z") = 0 ∧
    (download_all [("Y", "p1"), ("Z", "p2")] (fun s => !(s == "Y"))).1.countP
        (fun e => e == DlEvent.rename "Z") = 0 := by
  decide

/-- C7 (corrected), amended: a bulk-retrieval failure for one axis is fatal to
the whole `download_all` call, not just to that axis: the axes before it in
map order complete all three phases, the failing axis performs only its
download attempt, the exception propagates (`some axis`), and no event is
performed for any axis after the failing one. -/
theorem download_all_aborts (pre suf : List (String × String)) (a p : String)
    (dlOk : String → Bool) (h1 : ∀ x ∈ pre, dlOk x.1 = true) (h2 : dlOk a = false) :
    download_all (pre ++ (a, p) :: suf) dlOk =
      ((pre.map fun x => axisEvents x.1).flatten ++ [DlEvent.download a], some a) := by
  rw [download_all_ok_front pre dlOk ((a, p) :: suf) h1]
  simp [download_all, h2]

/-- Witness for C7's amended theorem: one healthy axis before the failing one,
one axis after it. -/
theorem download_all_aborts_witness :
    (∀ x ∈ [("Y", "p1")], (fun s => !(s == "Z")) (Prod.fst x) = true) ∧
    (fun s => !(s == "Z")) "Z" = false ∧
    download_all [("Y", "p1"), ("Z", "p2"), ("W", "p3")] (fun s => !(s == "Z")) =
      (([("Y", "p1")].map fun x => axisEvents x.1).flatten ++ [DlEvent.download "Z"],
        some "Z") :=
  ⟨by decide, by decide,
    download_all_aborts [("Y", "p1")] [("W", "p3")] "Z" "p2" (fun s => !(s == "Z"))
      (by decide) (by decide)⟩

/-- C8 (confirmed): when the axis maps to the simulated-camera sentinel
(the string "Fake Camera" in the code), `capture` succeeds, creates the parent
directory of the destination when it is nonempty and absent, writes the
placeholder marker file at the destination, and never invokes the gphoto2
capture backend. -/
theorem capture_fake_camera (camera_map : List (String × String)) (mode : String)
    (folderExists backendOk : Bool) (axis filename : String)
    (h : lookupAxis camera_map axis = some "Fake Camera") :
    capture camera_map mode folderExists backendOk axis filename =
      ((if dirname filename ≠ "" ∧ folderExists = false
          then [CaptureEvent.makeDirs (dirname filename)] else [])
        ++ [CaptureEvent.writeFile filename], true) ∧
    (capture camera_map mode folderExists backendOk axis filename).1.countP isShell = 0 := by
  have he : capture camera_map mode folderExists backendOk axis filename =
      ((if dirname filename ≠ "" ∧ folderExists = false
          then [CaptureEvent.makeDirs (dirname filename)] else [])
        ++ [CaptureEvent.writeFile filename], true) := by
    unfold capture
    rw [h]
    simp only [capturePort]
    rw [if_neg (by decide : ¬(("Fake Camera" : String) = "" ∨ ("Fake Camera" : String) = "None"))]
    simp only [if_true]
  refine ⟨he, ?_⟩
  rw [he]
  by_cases hf : dirname filename ≠ "" ∧ folderExists = false
  · simp [hf, isShell]
  · simp [hf, isShell]

/-- Witness for C8 with the camera map sending axis "Z" to the sentinel and a
two-level destination path whose parent does not exist yet. -/
theorem capture_fake_camera_witness :
    lookupAxis [("Z", "Fake Camera")] "Z" = some "Fake Camera" ∧
    (capture [("Z", "Fake Camera")] "immediate" false true "Z" "out/Z/x.jpg" =
      ((if dirname "out/Z/x.jpg" ≠ "" ∧ false = false
          then [CaptureEvent.makeDirs (dirname "out/Z/x.jpg")] else [])
        ++ [CaptureEvent.writeFile "out/Z/x.jpg"], true) ∧
      (capture [("Z", "Fake Camera")] "immediate" false true "Z" "out/Z/x.jpg").1.countP
        isShell = 0) :=
  ⟨by decide,
    capture_fake_camera [("Z", "Fake Camera")] "immediate" false true "Z" "out/Z/x.jpg"
      (by decide)⟩

/-- Counting helper: a predicate false on capture-attempt events counts zero
over the per-axis capture lists the scan emits. -/
theorem captures_countP_zero (p : ScanEvent → Bool)
    (hc : ∀ a s, p (ScanEvent.captureAttempt a s) = false)
    (cams : List String) (s : ℕ) :
    ((cams.map fun a => ScanEvent.captureAttempt a s).countP p) = 0 := by
  induction cams with
  | nil => simp
  | cons a l ih => simp [List.countP_cons, hc, ih]

/-- Counting helper: the per-axis capture list of one step holds exactly one
capture attempt per configured axis. -/
theorem captures_countP_len (cams : List String) (s : ℕ) :
    ((cams.map fun a => ScanEvent.captureAttempt a s).countP isCapture) = cams.length := by
  induction cams with
  | nil => simp
  | cons a l ih => simp [List.countP_cons, isCapture, ih]

/-- Counting helper: a predicate false on the download event counts zero over
the optional deferred-download tail. -/
theorem dl_countP_zero (p : ScanEvent → Bool) (hp : p ScanEvent.downloadAll = false)
    (mode : String) :
    ((if mode = "sdcard" then [ScanEvent.downloadAll] else []).countP p) = 0 := by
  split
  · simp [List.countP_cons, hp]
  · simp

/-- Counting helper: a predicate false on capture, rotate and stop events
counts zero over any step-loop trace. -/
theorem scanLoop_countP_zero (cameras : List String) (angle : ℚ)
    (motorOk cancelDuring : ℕ → Bool) (p : ScanEvent → Bool)
    (hc : ∀ a s, p (ScanEvent.captureAttempt a s) = false)
    (hr : ∀ s, p (ScanEvent.rotate s) = false)
    (hs : ∀ s, p (ScanEvent.stoppedByUser s) = false) :
    ∀ (fuel step : ℕ) (st : ScanState),
      ((scanLoop cameras angle motorOk cancelDuring fuel step st).2).countP p = 0 := by
  intro fuel
  induction fuel with
  | zero => intro step st; simp [scanLoop]
  | succ n ih =>
    intro step st
    by_cases h : st.stop = true
    · simp [scanLoop, h, List.countP_cons, hs]
    · simp [scanLoop, h, List.countP_cons, List.countP_append, hr,
        captures_countP_zero p hc, ih]

/-- With no cancellation request and the flag clear, the step loop never
breaks and attempts one capture per axis per remaining iteration. -/
theorem scanLoop_nocancel (cameras : List String) (angle : ℚ) (motorOk : ℕ → Bool) :
    ∀ (fuel step : ℕ) (tt : Turntable),
      ((scanLoop cameras angle motorOk (fun _ => false) fuel step ⟨tt, false⟩).2).countP
        isStopped = 0 ∧
      ((scanLoop cameras angle motorOk (fun _ => false) fuel step ⟨tt, false⟩).2).countP
        isCapture = fuel * cameras.length := by
  intro fuel
  induction fuel with
  | zero => intro step tt; simp [scanLoop]
  | succ n ih =>
    intro step tt
    have h := ih (step + 1) ((move_degrees tt (motorOk step) angle).1)
    constructor
    · simpa [scanLoop, List.countP_cons, List.countP_append, isStopped,
        captures_countP_zero isStopped (fun a s => rfl)] using h.1
    · simp [scanLoop, List.countP_cons, List.countP_append, isCapture,
        captures_countP_len, h.2, Nat.succ_mul, Nat.add_comm, Function.comp_def,
        List.countP_true]

/-- When the only cancellation request arrives during step 10's body, any
iteration past step 10 starts with the flag set, so no rotation beyond step
10 is ever issued by the loop. -/
theorem scanLoop_cancel10 (cameras : List String) (angle : ℚ) (motorOk : ℕ → Bool) :
    ∀ (fuel step : ℕ) (st : ScanState), (10 < step → st.stop = true) →
      ((scanLoop cameras angle motorOk (fun s => s == 10) fuel step st).2).countP
        (rotateAbove 10) = 0 := by
  intro fuel
  induction fuel with
  | zero => intro step st hinv; simp [scanLoop]
  | succ n ih =>
    intro step st hinv
    by_cases h : st.stop = true
    · simp [scanLoop, h, List.countP_cons, rotateAbove]
    · have hstep : ¬10 < step := fun hgt => h (hinv hgt)
      have hrec := ih (step + 1)
        ⟨(move_degrees st.tt (motorOk step) angle).1, st.stop || (step == 10)⟩
        (by
          intro hgt
          have hten : step = 10 := by omega
          simp [hten])
      simp only [scanLoop]
      rw [if_neg h]
      simp only [List.countP_cons, List.countP_append]
      rw [captures_countP_zero (rotateAbove 10) (fun a s => rfl) cameras step]
      rw [hrec]
      simp [rotateAbove, decide_eq_false hstep]

/-- C5 (confirmed): every `perform_scan` trace decomposes as a reset-free
prefix, then exactly one turntable reset, then nothing but the optional
deferred download; and in the concrete scenario of a cancel arriving during
step 10 of 36 the loop issues no rotation beyond step 10 while the reset is
still performed (it appears exactly once in the trace). -/
theorem scan_reset_exactly_once :
    (∀ (cameras : List String) (num_steps : ℕ) (angle : ℚ) (mode : String)
        (motorOk cancelDuring : ℕ → Bool) (resetOk : Bool) (st : ScanState),
      ∃ l, (perform_scan cameras num_steps angle mode motorOk cancelDuring resetOk st).2
            = l ++ ScanEvent.reset ::
                (if mode = "sdcard" then [ScanEvent.downloadAll] else [])
          ∧ l.countP isReset = 0) ∧
    (∀ (mode : String) (motorOk : ℕ → Bool) (resetOk : Bool) (st : ScanState),
      (perform_scan ["Z", "Y"] 36 10 mode motorOk (fun s => s == 10) resetOk st).2.countP
          (rotateAbove 10) = 0 ∧
      (perform_scan ["Z", "Y"] 36 10 mode motorOk (fun s => s == 10) resetOk st).2.countP
          isReset = 1) := by
  constructor
  · intro cameras num_steps angle mode motorOk cancelDuring resetOk st
    refine ⟨(cameras.map fun a => ScanEvent.captureAttempt a 0)
        ++ (scanLoop cameras angle motorOk cancelDuring (num_steps - 1) 1
            ⟨st.tt, false || cancelDuring 0⟩).2, ?_, ?_⟩
    · simp [perform_scan]
    · rw [List.countP_append]
      rw [captures_countP_zero isReset (fun a s => rfl) cameras 0]
      rw [scanLoop_countP_zero cameras angle motorOk cancelDuring isReset
        (fun a s => rfl) (fun s => rfl) (fun s => rfl)]
  · intro mode motorOk resetOk st
    constructor
    · have hloop := scanLoop_cancel10 ["Z", "Y"] 10 motorOk (36 - 1) 1
        ⟨st.tt, false || ((0 : ℕ) == 10)⟩ (fun hgt => absurd hgt (by norm_num))
      simp only [perform_scan]
      rw [List.countP_append, List.countP_append, List.countP_cons]
      rw [captures_countP_zero (rotateAbove 10) (fun a s => rfl) ["Z", "Y"] 0]
      rw [hloop]
      rw [dl_countP_zero (rotateAbove 10) rfl mode]
      simp [rotateAbove]
    · have hloop := scanLoop_countP_zero ["Z", "Y"] 10 motorOk (fun s => s == 10) isReset
        (fun a s => rfl) (fun s => rfl) (fun s => rfl) (36 - 1) 1
        ⟨st.tt, false || ((0 : ℕ) == 10)⟩
      simp only [perform_scan]
      rw [List.countP_append, List.countP_append, List.countP_cons]
      rw [captures_countP_zero isReset (fun a s => rfl) ["Z", "Y"] 0]
      rw [hloop]
      rw [dl_countP_zero isReset rfl mode]
      simp [isReset]

/-- C10 (confirmed): `perform_scan` clears the stop flag on entry, so its
behaviour is independent of the flag value it inherits, and with no
cancellation request during the run the loop never breaks early. -/
theorem stop_flag_cleared_on_entry :
    (∀ (cameras : List String) (num_steps : ℕ) (angle : ℚ) (mode : String)
        (motorOk cancelDuring : ℕ → Bool) (resetOk : Bool) (tt : Turntable) (b : Bool),
      perform_scan cameras num_steps angle mode motorOk cancelDuring resetOk ⟨tt, b⟩
        = perform_scan cameras num_steps angle mode motorOk cancelDuring resetOk
            ⟨tt, false⟩) ∧
    (∀ (cameras : List String) (num_steps : ℕ) (angle : ℚ) (mode : String)
        (motorOk : ℕ → Bool) (resetOk : Bool) (st : ScanState),
      (perform_scan cameras num_steps angle mode motorOk (fun _ => false) resetOk st).2.countP
        isStopped = 0) := by
  constructor
  · intro cameras num_steps angle mode motorOk cancelDuring resetOk tt b
    rfl
  · intro cameras num_steps angle mode motorOk resetOk st
    have h := (scanLoop_nocancel cameras angle motorOk (num_steps - 1) 1 st.tt).1
    simp only [perform_scan]
    rw [Bool.false_or]
    rw [List.countP_append, List.countP_append, List.countP_cons]
    rw [captures_countP_zero isStopped (fun a s => rfl) cameras 0]
    rw [h]
    rw [dl_countP_zero isStopped rfl mode]
    simp [isStopped]

/-- C4 (corrected), counterexample: with 2 configured axes and
`angle_per_photo = 10` (so `num_steps = 36`) and no cancellation, the run
makes 72 capture attempts — the claimed total of 74 is wrong, because the
main loop iterates steps 1..35, not 36 times. -/
theorem scan_capture_attempts_counterexample :
    num_steps_of 10 = 36 ∧
    (perform_scan ["Z", "Y"] 36 10 "immediate" (fun _ => true) (fun _ => false) true
        ⟨Turntable.mkInit 200 32, false⟩).2.countP isCapture = 72 ∧
    ¬ (perform_scan ["Z", "Y"] 36 10 "immediate" (fun _ => true) (fun _ => false) true
        ⟨Turntable.mkInit 200 32, false⟩).2.countP isCapture = 74 := by
  refine ⟨?_, by decide, by decide⟩
  unfold num_steps_of ratTrunc
  rw [if_pos (by norm_num : (0 : ℚ) ≤ 360 / 10)]
  norm_num

/-- C4 (corrected), amended: a scan with 2 configured axes and
`stepCount = 36` that runs without cancellation makes exactly 72 capture
attempts — 35 × 2 across the main loop (steps 1 to 35) plus 2 initial
captures at angle 0 — regardless of the motor oracle, the capture mode, the
rotation angle and the starting state. -/
theorem scan_capture_attempts (angle : ℚ) (mode : String) (motorOk : ℕ → Bool)
    (resetOk : Bool) (st : ScanState) :
    (perform_scan ["Z", "Y"] 36 angle mode motorOk (fun _ => false) resetOk st).2.countP
      isCapture = 72 := by
  have h := (scanLoop_nocancel ["Z", "Y"] angle motorOk (36 - 1) 1 st.tt).2
  simp only [perform_scan]
  rw [Bool.false_or]
  rw [List.countP_append, List.countP_append, List.countP_cons]
  rw [captures_countP_len ["Z", "Y"] 0]
  rw [h]
  rw [dl_countP_zero isCapture rfl mode]
  norm_num [isCapture]

/-- C1 (code_bug): a motor-primitive failure during the rotation of step 1 is
swallowed inside `move_degrees` (the call is issued — magnitude 177 at the
default configuration — the exception is logged, and `current_step` stays
unchanged), and the Scan Controller's loop goes on to attempt the captures of
step 1 and of every later step instead of aborting: with one axis and 3
steps, all 3 capture attempts occur, including those at and after the failed
move. -/
theorem scan_motor_failure_not_propagated :
    (move_degrees (Turntable.mkInit 200 32) false 10).2 = [MotorCall.mk true 177] ∧
    ((move_degrees (Turntable.mkInit 200 32) false 10).1).current_step = 0 ∧
    (perform_scan ["Z"] 3 10 "immediate" (fun s => !(s == 1)) (fun _ => false) true
        ⟨Turntable.mkInit 200 32, false⟩).2.countP isCapture = 3 ∧
    ScanEvent.captureAttempt "Z" 1 ∈
      (perform_scan ["Z"] 3 10 "immediate" (fun s => !(s == 1)) (fun _ => false) true
        ⟨Turntable.mkInit 200 32, false⟩).2 ∧
    ScanEvent.captureAttempt "Z" 2 ∈
      (perform_scan ["Z"] 3 10 "immediate" (fun s => !(s == 1)) (fun _ => false) true
        ⟨Turntable.mkInit 200 32, false⟩).2 := by
  have h1 : move_degrees (Turntable.mkInit 200 32) false 10 =
      (Turntable.mkInit 200 32, [MotorCall.mk true 177]) := by
    unfold move_degrees
    rw [ratTrunc_default_ten]
    decide
  refine ⟨by rw [h1], ?_, by decide, by decide, by decide⟩
  rw [h1]
  rfl

/-- Witness for C6 at the default configuration with a concrete operation
sequence (a relative move, an absolute move, then a reset). -/
theorem current_step_in_range_witness :
    0 < 200 ∧ 0 < 32 ∧
      ((Turntable.mkInit 200 32).current_step = 0 ∧
        stepInRange (runOps (Turntable.mkInit 200 32)
          [TtOp.moveDegrees true 45, TtOp.moveToStep true 100, TtOp.resetToStart true])) :=
  ⟨by decide, by decide,
    current_step_in_range 200 32
      [TtOp.moveDegrees true 45, TtOp.moveToStep true 100, TtOp.resetToStart true]
      (by decide) (by decide)⟩

end PlantScan
